import Mathlib

/-!
Verification of the per-conversation form-filling state machine in
`src/aws_connect_sample/flow_manager.py`.

The Python module is embedded shallowly:

* `FlowState`, `FormData`, `CustomerFlow`, `FlowManager` mirror the classes
  of the same names; in-place mutation of a `CustomerFlow` stored in the
  manager's dict becomes functional update of the manager
  (`FlowManager.setFlow`).
* Python's `datetime.now()` is modelled by an explicit clock argument
  `now : Nat` supplied to every operation that reads the clock.
* Python truthiness of an `Optional[str]` (`None` and `""` are falsy) is
  `truthy`; `str.strip()` is `pyStrip` (over the ASCII whitespace
  characters Python strips).
* The manager's `self.flows` dict is a total map `String → Option CustomerFlow`.
-/

set_option linter.unusedVariables false

namespace AwsConnectSample

/-- The `FlowState` enum: states a customer can be in during a flow. -/
inductive FlowState where
  | IDLE
  | WAITING_FOR_FORM
  | FILLING_FORM
  | FORM_COMPLETE
  | AWAITING_AGENT
  | IN_CONVERSATION
deriving DecidableEq, Repr

/-- The `.value` string of each enum member. -/
def FlowState.value : FlowState → String
  | .IDLE => "idle"
  | .WAITING_FOR_FORM => "waiting_for_form"
  | .FILLING_FORM => "filling_form"
  | .FORM_COMPLETE => "form_complete"
  | .AWAITING_AGENT => "awaiting_agent"
  | .IN_CONVERSATION => "in_conversation"

/-- The `FormData` dataclass: four optional string fields, all defaulting to
`None`. -/
structure FormData where
  name : Option String := none
  company : Option String := none
  country : Option String := none
  email : Option String := none
deriving DecidableEq, Repr

/-- Python truthiness of an `Optional[str]`: `None` and `""` are falsy,
every other string is truthy. -/
def truthy : Option String → Bool
  | none => false
  | some s => !(s == "")

/-- `FormData.is_complete`: `all([self.name, self.company, self.country,
self.email])`, i.e. every field is a non-`None`, non-empty string. -/
def FormData.is_complete (d : FormData) : Bool :=
  truthy d.name && truthy d.company && truthy d.country && truthy d.email

/-- `FormData.to_dict`: a freshly built dictionary of the four fields, as an
ordered list of key/value pairs. -/
def FormData.to_dict (d : FormData) : List (String × Option String) :=
  [("name", d.name), ("company", d.company), ("country", d.country), ("email", d.email)]

/-- `hasattr(form_data, field_id)` restricted to the dataclass data fields —
the only attributes whose assignment stores a form value.  (Python's
`hasattr` is also true of method attributes such as `is_complete`; no
form-filling code path passes a method name here.) -/
def FormData.hasattrField (field_id : String) : Bool :=
  field_id == "name" || field_id == "company" || field_id == "country" || field_id == "email"

/-- `setattr(form_data, field_id, value)` over the four data fields; any
other identifier leaves the record unchanged (matching the guard under which
the source calls `setattr`). -/
def FormData.setattr (d : FormData) (field_id : String) (value : String) : FormData :=
  if field_id == "name" then { d with name := some value }
  else if field_id == "company" then { d with company := some value }
  else if field_id == "country" then { d with country := some value }
  else if field_id == "email" then { d with email := some value }
  else d

/-- `getattr(form_data, field_id)` over the four data fields. -/
def FormData.getattr (d : FormData) (field_id : String) : Option String :=
  if field_id == "name" then d.name
  else if field_id == "company" then d.company
  else if field_id == "country" then d.country
  else if field_id == "email" then d.email
  else none

/-- Characters stripped by Python's `str.strip()` (the ASCII whitespace
set: space, tab, newline, carriage return, vertical tab, form feed). -/
def pyIsSpace (c : Char) : Bool :=
  c == ' ' || c == '\t' || c == '\n' || c == '\r' || c == '\x0b' || c == '\x0c'

/-- `str.strip()`: remove leading and trailing whitespace. -/
def pyStrip (s : String) : String :=
  String.mk (((s.data.dropWhile pyIsSpace).reverse.dropWhile pyIsSpace).reverse)

/-- One entry of `conversation_history`: the dict
`{"type": ..., "field": ..., "value": ..., "timestamp": ...}` appended by
`process_form_response`. -/
structure HistEntry where
  type : String
  field : String
  value : String
  timestamp : Nat
deriving DecidableEq, Repr

/-- The `CustomerFlow` dataclass, with its field defaults. -/
structure CustomerFlow where
  chat_guid : String
  state : FlowState := .IDLE
  form_data : FormData := {}
  current_field : Option String := none
  field_order : List String := ["name", "company", "country", "email"]
  field_index : Nat := 0
  last_updated : Nat := 0
  conversation_history : List HistEntry := []
deriving DecidableEq, Repr

/-- `CustomerFlow.get_next_field`: `field_order[field_index]` when
`field_index < len(field_order)`, else `None`. -/
def CustomerFlow.get_next_field (f : CustomerFlow) : Option String :=
  f.field_order[f.field_index]?

/-- `CustomerFlow.set_field_value`: `if hasattr(self.form_data, field_id):
setattr(...); self.last_updated = datetime.now()`.  When the attribute is
absent the call silently does nothing. -/
def CustomerFlow.set_field_value (f : CustomerFlow) (field_id : String) (value : String)
    (now : Nat) : CustomerFlow :=
  if FormData.hasattrField field_id then
    { f with form_data := f.form_data.setattr field_id value, last_updated := now }
  else f

/-- `CustomerFlow.advance_to_next_field`: increment `field_index` and refresh
`current_field` while not at the last position; at the last position only
clear `current_field`. -/
def CustomerFlow.advance_to_next_field (f : CustomerFlow) : CustomerFlow :=
  if f.field_index < f.field_order.length - 1 then
    let f2 := { f with field_index := f.field_index + 1 }
    { f2 with current_field := f2.get_next_field }
  else
    { f with current_field := none }

/-- `CustomerFlow.reset`: back to `IDLE` with a fresh `FormData`,
`field_index = 0`, no current field, and an updated timestamp.  The source
does not assign `conversation_history`, so the history is kept. -/
def CustomerFlow.reset (f : CustomerFlow) (now : Nat) : CustomerFlow :=
  { f with state := .IDLE, form_data := {}, field_index := 0, current_field := none,
           last_updated := now }

/-- The `FlowManager`'s `self.flows` dict, as a total lookup function. -/
structure FlowManager where
  flows : String → Option CustomerFlow

/-- A manager holding no flows (`self.flows = {}` after `__init__`). -/
def emptyFlowManager : FlowManager := ⟨fun _ => none⟩

/-- `CustomerFlow(chat_guid=chat_guid)`: every other field takes its
dataclass default; `last_updated` is the construction-time clock. -/
def freshFlow (chat_guid : String) (now : Nat) : CustomerFlow :=
  { chat_guid := chat_guid, last_updated := now }

/-- Store (or overwrite) the flow registered under `chat_guid` — the
functional image of mutating the `CustomerFlow` object held in the dict. -/
def FlowManager.setFlow (m : FlowManager) (chat_guid : String) (flow : CustomerFlow) :
    FlowManager :=
  ⟨fun g => if g = chat_guid then some flow else m.flows g⟩

/-- `FlowManager.get_or_create_flow`: return the registered flow, or
construct, register and return a fresh one. -/
def FlowManager.get_or_create_flow (m : FlowManager) (chat_guid : String) (now : Nat) :
    FlowManager × CustomerFlow :=
  match m.flows chat_guid with
  | some flow => (m, flow)
  | none =>
      let flow := freshFlow chat_guid now
      (m.setFlow chat_guid flow, flow)

/-- `FlowManager.start_form_flow`: unconditionally put the flow in
`FILLING_FORM` with `field_index = 0` and `current_field` refreshed. -/
def FlowManager.start_form_flow (m : FlowManager) (chat_guid : String) (now : Nat) :
    FlowManager × CustomerFlow :=
  let p := m.get_or_create_flow chat_guid now
  let flow1 := { p.2 with state := FlowState.FILLING_FORM, field_index := 0 }
  let flow2 := { flow1 with current_field := flow1.get_next_field, last_updated := now }
  (p.1.setFlow chat_guid flow2, flow2)

/-- `FlowManager.process_form_response`: the transition on inbound text.
Returns the manager together with `(flow, is_complete)`.  Python's
`if not current_field` is falsy for both `None` and the empty string. -/
def FlowManager.process_form_response (m : FlowManager) (chat_guid : String)
    (message_text : String) (now : Nat) : FlowManager × CustomerFlow × Bool :=
  let p := m.get_or_create_flow chat_guid now
  let m1 := p.1
  let flow := p.2
  if flow.state ≠ FlowState.FILLING_FORM then (m1, flow, false)
  else
    match flow.current_field with
    | none => (m1, flow, false)
    | some current_field =>
        if current_field = "" then (m1, flow, false)
        else
          let flow1 := flow.set_field_value current_field (pyStrip message_text) now
          let entry : HistEntry :=
            { type := "customer_input", field := current_field,
              value := pyStrip message_text, timestamp := now }
          let flow2 := { flow1 with conversation_history := flow1.conversation_history ++ [entry] }
          let flow3 := flow2.advance_to_next_field
          if flow3.form_data.is_complete then
            let flow4 := { flow3 with state := FlowState.FORM_COMPLETE }
            (m1.setFlow chat_guid flow4, flow4, true)
          else
            (m1.setFlow chat_guid flow3, flow3, false)

/-- `FlowManager.complete_form_flow`: unconditionally `AWAITING_AGENT`. -/
def FlowManager.complete_form_flow (m : FlowManager) (chat_guid : String) (now : Nat) :
    FlowManager × CustomerFlow :=
  let p := m.get_or_create_flow chat_guid now
  let flow := { p.2 with state := FlowState.AWAITING_AGENT, last_updated := now }
  (p.1.setFlow chat_guid flow, flow)

/-- `FlowManager.start_conversation`: unconditionally `IN_CONVERSATION`. -/
def FlowManager.start_conversation (m : FlowManager) (chat_guid : String) (now : Nat) :
    FlowManager × CustomerFlow :=
  let p := m.get_or_create_flow chat_guid now
  let flow := { p.2 with state := FlowState.IN_CONVERSATION, last_updated := now }
  (p.1.setFlow chat_guid flow, flow)

/-- `FlowManager.reset_flow`: reset the flow only if one is registered;
an unknown `chat_guid` is left unregistered. -/
def FlowManager.reset_flow (m : FlowManager) (chat_guid : String) (now : Nat) : FlowManager :=
  match m.flows chat_guid with
  | some flow => m.setFlow chat_guid (flow.reset now)
  | none => m

/-- The summary dict built by `FlowManager.get_flow_summary`. -/
structure FlowSummary where
  chat_guid : String
  state : String
  form_data : List (String × Option String)
  is_form_complete : Bool
  conversation_history : List HistEntry
  last_updated : Nat
deriving DecidableEq, Repr

/-- `FlowManager.get_flow_summary`: summary of the (possibly freshly
created) flow.  `form_data` goes through `to_dict` (a fresh dict);
`conversation_history` is the flow's list itself (see the reference model
below for the aliasing this creates in Python). -/
def FlowManager.get_flow_summary (m : FlowManager) (chat_guid : String) (now : Nat) :
    FlowManager × FlowSummary :=
  let p := m.get_or_create_flow chat_guid now
  let flow := p.2
  (p.1,
   { chat_guid := chat_guid, state := flow.state.value, form_data := flow.form_data.to_dict,
     is_form_complete := flow.form_data.is_complete,
     conversation_history := flow.conversation_history, last_updated := flow.last_updated })

/-- One public `FlowManager` operation targeting a chat, for stating
properties of operation sequences. -/
inductive FlowOp where
  | startFormOp (now : Nat)
  | processOp (text : String) (now : Nat)
  | completeFormOp (now : Nat)
  | beginConversationOp (now : Nat)
  | summarizeOp (now : Nat)
  | resetOp (now : Nat)
deriving DecidableEq, Repr

/-- Whether the operation is `reset_flow`. -/
def FlowOp.isReset : FlowOp → Bool
  | .resetOp _ => true
  | _ => false

/-- Whether the operation is `start_form_flow`. -/
def FlowOp.isStartForm : FlowOp → Bool
  | .startFormOp _ => true
  | _ => false

/-- Apply one public operation to the manager, keeping only the manager
(the registry after the call). -/
def applyOp (m : FlowManager) (chat_guid : String) : FlowOp → FlowManager
  | .startFormOp now => (m.start_form_flow chat_guid now).1
  | .processOp t now => (m.process_form_response chat_guid t now).1
  | .completeFormOp now => (m.complete_form_flow chat_guid now).1
  | .beginConversationOp now => (m.start_conversation chat_guid now).1
  | .summarizeOp now => (m.get_flow_summary chat_guid now).1
  | .resetOp now => m.reset_flow chat_guid now

/-!
Reference-semantics model of `get_flow_summary`.

In Python the summary dict stores `flow.form_data.to_dict()` — a freshly
built dict — but `flow.conversation_history` is stored as the very same
list object the flow holds.  To make that aliasing observable in a pure
embedding, the history list is placed on an explicit heap of list objects
addressed by index: a `CustomerFlowRef` holds a reference `historyRef`
instead of the list itself, and the summary built by
`get_flow_summary_ref` holds the same reference, while its `form_data` is
a by-value copy.
-/

/-- Read the list object at address `r` of the heap. -/
def heapRead (heap : List (List HistEntry)) (r : Nat) : List HistEntry :=
  heap.getD r []

/-- `list.append(e)` performed through a reference: mutate the list object
at address `r` in place. -/
def heapAppendEntry (heap : List (List HistEntry)) (r : Nat) (e : HistEntry) :
    List (List HistEntry) :=
  heap.set r (heapRead heap r ++ [e])

/-- `CustomerFlow` with `conversation_history` held by reference into the
heap of list objects. -/
structure CustomerFlowRef where
  chat_guid : String
  state : FlowState := .IDLE
  form_data : FormData := {}
  current_field : Option String := none
  field_order : List String := ["name", "company", "country", "email"]
  field_index : Nat := 0
  last_updated : Nat := 0
  historyRef : Nat
deriving DecidableEq, Repr

/-- The summary dict, with `conversation_history` held by reference. -/
structure FlowSummaryRef where
  chat_guid : String
  state : String
  form_data : List (String × Option String)
  is_form_complete : Bool
  historyRef : Nat
  last_updated : Nat
deriving DecidableEq, Repr

/-- `get_flow_summary` on a reference-holding flow: `form_data` is copied
via `to_dict`, `conversation_history` is stored as the same list object
(the same heap reference). -/
def get_flow_summary_ref (flow : CustomerFlowRef) : FlowSummaryRef :=
  { chat_guid := flow.chat_guid, state := flow.state.value,
    form_data := flow.form_data.to_dict,
    is_form_complete := flow.form_data.is_complete,
    historyRef := flow.historyRef, last_updated := flow.last_updated }

/-- The session's history as observed through its reference. -/
def sessionHistory (heap : List (List HistEntry)) (flow : CustomerFlowRef) : List HistEntry :=
  heapRead heap flow.historyRef

/-! Concrete sessions and managers used as counterexamples and witnesses. -/

/-- A session in `FILLING_FORM` at the first field, as produced by
`start_form_flow` on a fresh chat. -/
def fillingFlow : CustomerFlow :=
  { chat_guid := "g", state := .FILLING_FORM, current_field := some "name" }

/-- A manager registering `fillingFlow` under `"g"`. -/
def fillingM : FlowManager :=
  ⟨fun g => if g = "g" then some fillingFlow else none⟩

/-- A session that has recorded one history entry. -/
def historiedFlow : CustomerFlow :=
  { chat_guid := "g", state := .FORM_COMPLETE,
    form_data := { name := some "John" },
    conversation_history := [⟨"customer_input", "name", "John", 1⟩] }

/-- A manager registering `historiedFlow` under `"g"`. -/
def historiedM : FlowManager :=
  ⟨fun g => if g = "g" then some historiedFlow else none⟩

/-- A session whose cursor has advanced to 1. -/
def advancedFlow : CustomerFlow :=
  { chat_guid := "g", state := .FILLING_FORM, form_data := { name := some "John" },
    current_field := some "company", field_index := 1 }

/-- A manager registering `advancedFlow` under `"g"`. -/
def advancedM : FlowManager :=
  ⟨fun g => if g = "g" then some advancedFlow else none⟩

/-- A reference-holding session whose history is the list object at heap
address 0. -/
def refFlow : CustomerFlowRef :=
  { chat_guid := "g", state := .FORM_COMPLETE, historyRef := 0, last_updated := 3 }

/-- A one-object heap: address 0 holds a one-entry history list. -/
def refHeap : List (List HistEntry) := [[⟨"customer_input", "name", "John", 1⟩]]

/-- An entry to append through the summary. -/
def refEntry : HistEntry := ⟨"customer_input", "company", "Acme", 2⟩

/-- `advancedFlow` after `complete_form_flow` at clock 2. -/
def awaitingFlow : CustomerFlow :=
  { advancedFlow with state := .AWAITING_AGENT, last_updated := 2 }

/-! Registry lemmas: how `flows` reacts to `setFlow` and
`get_or_create_flow`. -/

theorem flows_setFlow_self (m : FlowManager) (g : String) (f : CustomerFlow) :
    (m.setFlow g f).flows g = some f := by
  simp [FlowManager.setFlow]

theorem flows_setFlow_ne (m : FlowManager) (g g2 : String) (f : CustomerFlow) (h : g ≠ g2) :
    (m.setFlow g2 f).flows g = m.flows g := by
  simp [FlowManager.setFlow, h]

theorem get_or_create_of_some (m : FlowManager) (g : String) (now : Nat) (flow : CustomerFlow)
    (h : m.flows g = some flow) : m.get_or_create_flow g now = (m, flow) := by
  simp [FlowManager.get_or_create_flow, h]

theorem get_or_create_of_none (m : FlowManager) (g : String) (now : Nat)
    (h : m.flows g = none) :
    m.get_or_create_flow g now = (m.setFlow g (freshFlow g now), freshFlow g now) := by
  simp [FlowManager.get_or_create_flow, h]

theorem flows_get_or_create_self (m : FlowManager) (g : String) (now : Nat) :
    ((m.get_or_create_flow g now).1).flows g = some (m.get_or_create_flow g now).2 := by
  cases h : m.flows g <;>
    simp [FlowManager.get_or_create_flow, h, FlowManager.setFlow]

theorem flows_get_or_create_ne (m : FlowManager) (g g2 : String) (now : Nat) (h : g ≠ g2) :
    ((m.get_or_create_flow g2 now).1).flows g = m.flows g := by
  cases h2 : m.flows g2 <;>
    simp [FlowManager.get_or_create_flow, h2, FlowManager.setFlow, h]

/-- Claim C6: for every session whose state is not `FILLING_FORM` (including
`IDLE`) and every input text, `process_form_response` is a no-op: it returns
`complete = false` and leaves the manager — hence the session's values,
cursor, state and history — unchanged. -/
theorem C6_process_no_op_outside_filling (m : FlowManager) (g t : String) (now : Nat)
    (flow : CustomerFlow) (hm : m.flows g = some flow)
    (hstate : flow.state ≠ FlowState.FILLING_FORM) :
    m.process_form_response g t now = (m, flow, false) := by
  unfold FlowManager.process_form_response
  rw [get_or_create_of_some m g now flow hm]
  simp [hstate]

theorem C6_process_no_op_outside_filling_witness :
    historiedM.flows "g" = some historiedFlow ∧
    historiedFlow.state ≠ FlowState.FILLING_FORM ∧
    historiedM.process_form_response "g" "hello" 7 = (historiedM, historiedFlow, false) :=
  ⟨by decide, by decide,
   C6_process_no_op_outside_filling historiedM "g" "hello" 7 historiedFlow
     (by decide) (by decide)⟩

/-- Claim C5 counterexample: assigning to the field identifier `"phone"`,
absent from the form model, is silently skipped — `set_field_value` returns
the session completely unchanged (its return type, like the Python method,
has no error channel, so no configuration error is signalled). -/
theorem C5_counterexample_silent_skip :
    historiedFlow.set_field_value "phone" "555" 7 = historiedFlow ∧
    (historiedFlow.set_field_value "phone" "555" 7).form_data = historiedFlow.form_data := by
  constructor <;> decide

/-- Claim C5 amended: an attempt to assign a value to a field identifier that
is not an attribute of `FormData` is silently skipped: the session (form
data and timestamp included) is returned unchanged and no error is
signalled. -/
theorem C5_amended_unknown_field_skipped (flow : CustomerFlow) (field_id value : String)
    (now : Nat) (h : FormData.hasattrField field_id = false) :
    flow.set_field_value field_id value now = flow := by
  simp [CustomerFlow.set_field_value, h]

theorem C5_amended_unknown_field_skipped_witness :
    FormData.hasattrField "phone" = false ∧
    fillingFlow.set_field_value "phone" "555" 7 = fillingFlow :=
  ⟨by decide, C5_amended_unknown_field_skipped fillingFlow "phone" "555" 7 (by decide)⟩

/-- Claim C3 counterexample: resetting a session that holds one history
entry leaves that entry in place — the event history is not cleared. -/
theorem C3_counterexample_history_kept :
    ((historiedM.reset_flow "g" 9).flows "g").map CustomerFlow.conversation_history ≠
      some [] ∧
    ((historiedM.reset_flow "g" 9).flows "g").map CustomerFlow.conversation_history =
      some [⟨"customer_input", "name", "John", 1⟩] := by
  constructor <;> decide

/-- Claim C3 amended: after `reset_flow` on a registered session, the
session has state `IDLE`, all field values empty, cursor 0 and no current
field, but its event history is preserved (the reset never touches
`conversation_history`). -/
theorem C3_amended_reset_state (m : FlowManager) (g : String) (now : Nat)
    (flow : CustomerFlow) (hm : m.flows g = some flow) :
    (m.reset_flow g now).flows g = some (flow.reset now) ∧
    (flow.reset now).state = FlowState.IDLE ∧
    (flow.reset now).form_data = {} ∧
    (flow.reset now).field_index = 0 ∧
    (flow.reset now).current_field = none ∧
    (flow.reset now).conversation_history = flow.conversation_history := by
  unfold FlowManager.reset_flow
  rw [hm]
  exact ⟨flows_setFlow_self m g (flow.reset now), rfl, rfl, rfl, rfl, rfl⟩

theorem C3_amended_reset_state_witness :
    historiedM.flows "g" = some historiedFlow ∧
    (historiedM.reset_flow "g" 9).flows "g" = some (historiedFlow.reset 9) ∧
    (historiedFlow.reset 9).state = FlowState.IDLE ∧
    (historiedFlow.reset 9).conversation_history = historiedFlow.conversation_history :=
  ⟨by decide,
   (C3_amended_reset_state historiedM "g" 9 historiedFlow (by decide)).1,
   (C3_amended_reset_state historiedM "g" 9 historiedFlow (by decide)).2.1,
   (C3_amended_reset_state historiedM "g" 9 historiedFlow (by decide)).2.2.2.2.2⟩

/-- Claim C9: the named transition operations never check the current
state: for every manager, chat and clock, `start_form_flow` puts the
registered session in `FILLING_FORM` with cursor 0, `complete_form_flow`
puts it in `AWAITING_AGENT`, and `start_conversation` puts it in
`IN_CONVERSATION` — in particular `complete_form_flow` moves even a fresh
`IDLE` session to `AWAITING_AGENT`. -/
theorem C9_unconditional_transitions (m : FlowManager) (g : String) (now : Nat) :
    ((m.start_form_flow g now).2.state = FlowState.FILLING_FORM ∧
     (m.start_form_flow g now).2.field_index = 0 ∧
     ((m.start_form_flow g now).1).flows g = some (m.start_form_flow g now).2) ∧
    ((m.complete_form_flow g now).2.state = FlowState.AWAITING_AGENT ∧
     ((m.complete_form_flow g now).1).flows g = some (m.complete_form_flow g now).2) ∧
    ((m.start_conversation g now).2.state = FlowState.IN_CONVERSATION ∧
     ((m.start_conversation g now).1).flows g = some (m.start_conversation g now).2) := by
  refine ⟨⟨rfl, rfl, ?_⟩, ⟨rfl, ?_⟩, ⟨rfl, ?_⟩⟩ <;>
    simp [FlowManager.start_form_flow, FlowManager.complete_form_flow,
      FlowManager.start_conversation, FlowManager.setFlow]

/-- Claim C2 counterexample: a whitespace-only input (`"  "`, which trims
to the empty string) supplied to a session in `FILLING_FORM` at the first
field advances the cursor from 0 to 1 — the code never rejects an empty
trimmed value. -/
theorem C2_counterexample_cursor_advances :
    pyStrip "  " = "" ∧
    fillingFlow.field_index = 0 ∧
    (fillingM.process_form_response "g" "  " 5).2.1.field_index = 1 := by
  refine ⟨?_, ?_, ?_⟩ <;> decide

/-- Claim C2 amended: an empty or whitespace-only input is processed like
any other input: the empty trimmed string is assigned to the current field
and the cursor advances by one (when not already at the last position);
the field still counts as unfilled for completeness — the empty value is
falsy — so the call returns `complete = false` and the state stays
`FILLING_FORM`. -/
theorem C2_amended_empty_input_processed (m : FlowManager) (g t : String) (now : Nat)
    (flow : CustomerFlow) (cf : String)
    (hm : m.flows g = some flow) (hstate : flow.state = FlowState.FILLING_FORM)
    (hcf : flow.current_field = some cf) (hfield : FormData.hasattrField cf = true)
    (hws : pyStrip t = "") (hlast : flow.field_index < flow.field_order.length - 1) :
    (m.process_form_response g t now).2.1.field_index = flow.field_index + 1 ∧
    (m.process_form_response g t now).2.1.form_data.getattr cf = some "" ∧
    truthy ((m.process_form_response g t now).2.1.form_data.getattr cf) = false ∧
    (m.process_form_response g t now).2.2 = false ∧
    (m.process_form_response g t now).2.1.state = FlowState.FILLING_FORM := by
  simp only [FormData.hasattrField, Bool.or_eq_true, beq_iff_eq] at hfield
  unfold FlowManager.process_form_response
  rw [get_or_create_of_some m g now flow hm]
  rcases hfield with ((rfl | rfl) | rfl) | rfl <;>
    simp [hstate, hcf, hws, hlast, CustomerFlow.set_field_value, FormData.hasattrField,
      FormData.setattr, FormData.getattr, CustomerFlow.advance_to_next_field,
      CustomerFlow.get_next_field, FormData.is_complete, truthy]

theorem C2_amended_empty_input_processed_witness :
    (fillingM.flows "g" = some fillingFlow ∧
     fillingFlow.state = FlowState.FILLING_FORM ∧
     fillingFlow.current_field = some "name" ∧
     pyStrip "  " = "" ∧
     fillingFlow.field_index < fillingFlow.field_order.length - 1) ∧
    (fillingM.process_form_response "g" "  " 5).2.1.field_index =
      fillingFlow.field_index + 1 ∧
    (fillingM.process_form_response "g" "  " 5).2.1.form_data.getattr "name" = some "" ∧
    (fillingM.process_form_response "g" "  " 5).2.2 = false :=
  have h := C2_amended_empty_input_processed fillingM "g" "  " 5 fillingFlow "name"
    (by decide) (by decide) (by decide) (by decide) (by decide) (by decide)
  ⟨⟨by decide, by decide, by decide, by decide, by decide⟩, h.1, h.2.1, h.2.2.2.1⟩

/-- Claim C7 counterexample: the summary returned for `refFlow` holds the
session's history list itself, not a copy — appending an entry through the
summary's history reference changes the session's observed history. -/
theorem C7_counterexample_history_aliased :
    sessionHistory
        (heapAppendEntry refHeap (get_flow_summary_ref refFlow).historyRef refEntry)
        refFlow ≠
      sessionHistory refHeap refFlow := by
  decide

/-- Claim C7 amended: the summary's `form_data` is an independent by-value
copy (built by `to_dict`), but its `conversation_history` is the same list
object as the session's: the summary carries the session's own history
reference, and appending an entry through that reference appends it to the
session's observed history. -/
theorem C7_amended_summary_aliasing (flow : CustomerFlowRef) (heap : List (List HistEntry))
    (e : HistEntry) (h : flow.historyRef < heap.length) :
    (get_flow_summary_ref flow).historyRef = flow.historyRef ∧
    (get_flow_summary_ref flow).form_data = flow.form_data.to_dict ∧
    sessionHistory (heapAppendEntry heap (get_flow_summary_ref flow).historyRef e) flow =
      sessionHistory heap flow ++ [e] := by
  refine ⟨rfl, rfl, ?_⟩
  unfold sessionHistory heapAppendEntry heapRead get_flow_summary_ref
  simp [List.getD, List.getElem?_set_self h]

theorem C7_amended_summary_aliasing_witness :
    refFlow.historyRef < refHeap.length ∧
    sessionHistory (heapAppendEntry refHeap (get_flow_summary_ref refFlow).historyRef refEntry)
        refFlow =
      sessionHistory refHeap refFlow ++ [refEntry] :=
  ⟨by decide, (C7_amended_summary_aliasing refFlow refHeap refEntry (by decide)).2.2⟩

/-- Claim C10 counterexample: `reset_flow` is a public operation that does
not lazily create a session — called with a never-seen identifier it
registers nothing and leaves the manager unchanged. -/
theorem C10_counterexample_reset_no_create :
    (emptyFlowManager.reset_flow "g" 0).flows "g" = none ∧
    emptyFlowManager.reset_flow "g" 0 = emptyFlowManager := by
  exact ⟨rfl, rfl⟩

/-- Claim C10 amended: every public operation except `reset_flow` lazily
creates and registers a session on a never-seen identifier; the session is
created in state `IDLE` with empty values and cursor 0, so the no-op
`process_form_response` returns exactly that fresh session with
`complete = false`, and `get_flow_summary` never fails — it returns the
fresh `IDLE` session's summary.  `reset_flow` on an unknown identifier does
nothing. -/
theorem C10_amended_lazy_creation (m : FlowManager) (g t : String) (now : Nat)
    (hm : m.flows g = none) :
    ((m.process_form_response g t now).1.flows g = some (freshFlow g now) ∧
     (m.process_form_response g t now).2.1 = freshFlow g now ∧
     (m.process_form_response g t now).2.2 = false) ∧
    ((m.get_flow_summary g now).1.flows g = some (freshFlow g now) ∧
     (m.get_flow_summary g now).2 =
       { chat_guid := g, state := "idle",
         form_data := [("name", none), ("company", none), ("country", none), ("email", none)],
         is_form_complete := false, conversation_history := [], last_updated := now }) ∧
    ((m.start_form_flow g now).1.flows g).isSome = true ∧
    ((m.complete_form_flow g now).1.flows g).isSome = true ∧
    ((m.start_conversation g now).1.flows g).isSome = true ∧
    m.reset_flow g now = m := by
  refine ⟨?_, ?_, ?_, ?_, ?_, ?_⟩
  · unfold FlowManager.process_form_response
    rw [get_or_create_of_none m g now hm]
    simp [freshFlow, FlowManager.setFlow]
  · unfold FlowManager.get_flow_summary
    rw [get_or_create_of_none m g now hm]
    simp [freshFlow, FlowManager.setFlow, FlowState.value, FormData.to_dict,
      FormData.is_complete, truthy]
  · unfold FlowManager.start_form_flow
    rw [get_or_create_of_none m g now hm]
    simp [FlowManager.setFlow]
  · unfold FlowManager.complete_form_flow
    rw [get_or_create_of_none m g now hm]
    simp [FlowManager.setFlow]
  · unfold FlowManager.start_conversation
    rw [get_or_create_of_none m g now hm]
    simp [FlowManager.setFlow]
  · unfold FlowManager.reset_flow
    rw [hm]

theorem C10_amended_lazy_creation_witness :
    emptyFlowManager.flows "g" = none ∧
    (emptyFlowManager.process_form_response "g" "hi" 4).1.flows "g" =
      some (freshFlow "g" 4) ∧
    (emptyFlowManager.get_flow_summary "g" 4).2 =
      { chat_guid := "g", state := "idle",
        form_data := [("name", none), ("company", none), ("country", none), ("email", none)],
        is_form_complete := false, conversation_history := [], last_updated := 4 } ∧
    emptyFlowManager.reset_flow "g" 4 = emptyFlowManager :=
  have h := C10_amended_lazy_creation emptyFlowManager "g" "hi" 4 rfl
  ⟨rfl, h.1.1, h.2.1.2, h.2.2.2.2.2⟩

/-- Claim C1: starting from `start_form_flow` on a fresh chat, any four
inputs whose trimmed text is non-empty, supplied to
`process_form_response` while in `FILLING_FORM`, are all accepted: the
first three calls return `complete = false`, the fourth returns
`complete = true`, leaves the registered session in `FORM_COMPLETE`, and
the stored values are the trimmed input texts assigned to `name`,
`company`, `country`, `email` in declared order. -/
theorem C1_form_completion (t1 t2 t3 t4 : String) (n0 n1 n2 n3 n4 : Nat)
    (m0 : FlowManager) (r1 r2 r3 r4 : FlowManager × CustomerFlow × Bool)
    (h1 : pyStrip t1 ≠ "") (h2 : pyStrip t2 ≠ "") (h3 : pyStrip t3 ≠ "")
    (h4 : pyStrip t4 ≠ "")
    (hm0 : m0 = (emptyFlowManager.start_form_flow "chat" n0).1)
    (hr1 : r1 = m0.process_form_response "chat" t1 n1)
    (hr2 : r2 = r1.1.process_form_response "chat" t2 n2)
    (hr3 : r3 = r2.1.process_form_response "chat" t3 n3)
    (hr4 : r4 = r3.1.process_form_response "chat" t4 n4) :
    r1.2.2 = false ∧ r2.2.2 = false ∧ r3.2.2 = false ∧
    r4.2.2 = true ∧ r4.2.1.state = FlowState.FORM_COMPLETE ∧
    r4.1.flows "chat" = some r4.2.1 ∧
    r4.2.1.form_data =
      { name := some (pyStrip t1), company := some (pyStrip t2),
        country := some (pyStrip t3), email := some (pyStrip t4) } := by
  have b1 : (pyStrip t1 == "") = false := by simp [h1]
  have b2 : (pyStrip t2 == "") = false := by simp [h2]
  have b3 : (pyStrip t3 == "") = false := by simp [h3]
  have b4 : (pyStrip t4 == "") = false := by simp [h4]
  have h0 : m0.flows "chat" =
      some { chat_guid := "chat", state := FlowState.FILLING_FORM, form_data := {},
             current_field := some "name",
             field_order := ["name", "company", "country", "email"], field_index := 0,
             last_updated := n0, conversation_history := [] } := by
    rw [hm0]; rfl
  have e1 : m0.process_form_response "chat" t1 n1 =
      (m0.setFlow "chat"
        { chat_guid := "chat", state := FlowState.FILLING_FORM,
          form_data := { name := some (pyStrip t1) },
          current_field := some "company",
          field_order := ["name", "company", "country", "email"], field_index := 1,
          last_updated := n1,
          conversation_history := [⟨"customer_input", "name", pyStrip t1, n1⟩] },
       { chat_guid := "chat", state := FlowState.FILLING_FORM,
         form_data := { name := some (pyStrip t1) },
         current_field := some "company",
         field_order := ["name", "company", "country", "email"], field_index := 1,
         last_updated := n1,
         conversation_history := [⟨"customer_input", "name", pyStrip t1, n1⟩] },
       false) := by
    unfold FlowManager.process_form_response
    rw [get_or_create_of_some _ _ _ _ h0]
    simp [CustomerFlow.set_field_value, FormData.hasattrField, FormData.setattr,
      CustomerFlow.advance_to_next_field, CustomerFlow.get_next_field,
      FormData.is_complete, truthy]
  have hr1' := hr1.trans e1
  have h1' : r1.1.flows "chat" =
      some { chat_guid := "chat", state := FlowState.FILLING_FORM,
             form_data := { name := some (pyStrip t1) },
             current_field := some "company",
             field_order := ["name", "company", "country", "email"], field_index := 1,
             last_updated := n1,
             conversation_history := [⟨"customer_input", "name", pyStrip t1, n1⟩] } := by
    rw [hr1']
    exact flows_setFlow_self _ _ _
  have e2 : r1.1.process_form_response "chat" t2 n2 =
      (r1.1.setFlow "chat"
        { chat_guid := "chat", state := FlowState.FILLING_FORM,
          form_data := { name := some (pyStrip t1), company := some (pyStrip t2) },
          current_field := some "country",
          field_order := ["name", "company", "country", "email"], field_index := 2,
          last_updated := n2,
          conversation_history := [⟨"customer_input", "name", pyStrip t1, n1⟩,
            ⟨"customer_input", "company", pyStrip t2, n2⟩] },
       { chat_guid := "chat", state := FlowState.FILLING_FORM,
         form_data := { name := some (pyStrip t1), company := some (pyStrip t2) },
         current_field := some "country",
         field_order := ["name", "company", "country", "email"], field_index := 2,
         last_updated := n2,
         conversation_history := [⟨"customer_input", "name", pyStrip t1, n1⟩,
           ⟨"customer_input", "company", pyStrip t2, n2⟩] },
       false) := by
    unfold FlowManager.process_form_response
    rw [get_or_create_of_some _ _ _ _ h1']
    simp [CustomerFlow.set_field_value, FormData.hasattrField, FormData.setattr,
      CustomerFlow.advance_to_next_field, CustomerFlow.get_next_field,
      FormData.is_complete, truthy]
  have hr2' := hr2.trans e2
  have h2' : r2.1.flows "chat" =
      some { chat_guid := "chat", state := FlowState.FILLING_FORM,
             form_data := { name := some (pyStrip t1), company := some (pyStrip t2) },
             current_field := some "country",
             field_order := ["name", "company", "country", "email"], field_index := 2,
             last_updated := n2,
             conversation_history := [⟨"customer_input", "name", pyStrip t1, n1⟩,
               ⟨"customer_input", "company", pyStrip t2, n2⟩] } := by
    rw [hr2']
    exact flows_setFlow_self _ _ _
  have e3 : r2.1.process_form_response "chat" t3 n3 =
      (r2.1.setFlow "chat"
        { chat_guid := "chat", state := FlowState.FILLING_FORM,
          form_data := { name := some (pyStrip t1), company := some (pyStrip t2),
                         country := some (pyStrip t3) },
          current_field := some "email",
          field_order := ["name", "company", "country", "email"], field_index := 3,
          last_updated := n3,
          conversation_history := [⟨"customer_input", "name", pyStrip t1, n1⟩,
            ⟨"customer_input", "company", pyStrip t2, n2⟩,
            ⟨"customer_input", "country", pyStrip t3, n3⟩] },
       { chat_guid := "chat", state := FlowState.FILLING_FORM,
         form_data := { name := some (pyStrip t1), company := some (pyStrip t2),
                        country := some (pyStrip t3) },
         current_field := some "email",
         field_order := ["name", "company", "country", "email"], field_index := 3,
         last_updated := n3,
         conversation_history := [⟨"customer_input", "name", pyStrip t1, n1⟩,
           ⟨"customer_input", "company", pyStrip t2, n2⟩,
           ⟨"customer_input", "country", pyStrip t3, n3⟩] },
       false) := by
    unfold FlowManager.process_form_response
    rw [get_or_create_of_some _ _ _ _ h2']
    simp [CustomerFlow.set_field_value, FormData.hasattrField, FormData.setattr,
      CustomerFlow.advance_to_next_field, CustomerFlow.get_next_field,
      FormData.is_complete, truthy]
  have hr3' := hr3.trans e3
  have h3' : r3.1.flows "chat" =
      some { chat_guid := "chat", state := FlowState.FILLING_FORM,
             form_data := { name := some (pyStrip t1), company := some (pyStrip t2),
                            country := some (pyStrip t3) },
             current_field := some "email",
             field_order := ["name", "company", "country", "email"], field_index := 3,
             last_updated := n3,
             conversation_history := [⟨"customer_input", "name", pyStrip t1, n1⟩,
               ⟨"customer_input", "company", pyStrip t2, n2⟩,
               ⟨"customer_input", "country", pyStrip t3, n3⟩] } := by
    rw [hr3']
    exact flows_setFlow_self _ _ _
  have e4 : r3.1.process_form_response "chat" t4 n4 =
      (r3.1.setFlow "chat"
        { chat_guid := "chat", state := FlowState.FORM_COMPLETE,
          form_data := { name := some (pyStrip t1), company := some (pyStrip t2),
                         country := some (pyStrip t3), email := some (pyStrip t4) },
          current_field := none,
          field_order := ["name", "company", "country", "email"], field_index := 3,
          last_updated := n4,
          conversation_history := [⟨"customer_input", "name", pyStrip t1, n1⟩,
            ⟨"customer_input", "company", pyStrip t2, n2⟩,
            ⟨"customer_input", "country", pyStrip t3, n3⟩,
            ⟨"customer_input", "email", pyStrip t4, n4⟩] },
       { chat_guid := "chat", state := FlowState.FORM_COMPLETE,
         form_data := { name := some (pyStrip t1), company := some (pyStrip t2),
                        country := some (pyStrip t3), email := some (pyStrip t4) },
         current_field := none,
         field_order := ["name", "company", "country", "email"], field_index := 3,
         last_updated := n4,
         conversation_history := [⟨"customer_input", "name", pyStrip t1, n1⟩,
           ⟨"customer_input", "company", pyStrip t2, n2⟩,
           ⟨"customer_input", "country", pyStrip t3, n3⟩,
           ⟨"customer_input", "email", pyStrip t4, n4⟩] },
       true) := by
    unfold FlowManager.process_form_response
    rw [get_or_create_of_some _ _ _ _ h3']
    simp [CustomerFlow.set_field_value, FormData.hasattrField, FormData.setattr,
      CustomerFlow.advance_to_next_field, CustomerFlow.get_next_field,
      FormData.is_complete, truthy, b1, b2, b3, b4]
  have hr4' := hr4.trans e4
  refine ⟨by rw [hr1'], by rw [hr2'], by rw [hr3'], by rw [hr4'], by rw [hr4'], ?_,
    by rw [hr4']⟩
  rw [hr4']
  exact flows_setFlow_self _ _ _

theorem C1_form_completion_witness :
    (pyStrip "John Doe" ≠ "" ∧ pyStrip "Acme Corp" ≠ "" ∧ pyStrip "Canada" ≠ "" ∧
     pyStrip "john@example.com" ≠ "") ∧
    (((((emptyFlowManager.start_form_flow "chat" 0).1.process_form_response
          "chat" "John Doe" 1).1.process_form_response
          "chat" "Acme Corp" 2).1.process_form_response
          "chat" "Canada" 3).1.process_form_response
          "chat" "john@example.com" 4).2.2 = true ∧
    (((((emptyFlowManager.start_form_flow "chat" 0).1.process_form_response
          "chat" "John Doe" 1).1.process_form_response
          "chat" "Acme Corp" 2).1.process_form_response
          "chat" "Canada" 3).1.process_form_response
          "chat" "john@example.com" 4).2.1.form_data =
      { name := some (pyStrip "John Doe"), company := some (pyStrip "Acme Corp"),
        country := some (pyStrip "Canada"), email := some (pyStrip "john@example.com") } :=
  have h := C1_form_completion "John Doe" "Acme Corp" "Canada" "john@example.com"
    0 1 2 3 4 _ _ _ _ _ (by decide) (by decide) (by decide) (by decide)
    rfl rfl rfl rfl rfl
  ⟨⟨by decide, by decide, by decide, by decide⟩, h.2.2.2.1, h.2.2.2.2.2.2⟩

/-! Cursor lemmas for C4. -/

theorem set_field_value_field_index (f : CustomerFlow) (field_id value : String) (now : Nat) :
    (f.set_field_value field_id value now).field_index = f.field_index := by
  unfold CustomerFlow.set_field_value
  split <;> rfl

theorem advance_field_index_ge (f : CustomerFlow) :
    f.field_index ≤ f.advance_to_next_field.field_index := by
  unfold CustomerFlow.advance_to_next_field
  split
  · exact Nat.le_succ _
  · exact Nat.le_refl _

theorem process_cursor_le (m : FlowManager) (g t : String) (now : Nat) (flow : CustomerFlow)
    (hm : m.flows g = some flow) :
    ∃ flow', (m.process_form_response g t now).1.flows g = some flow' ∧
      flow.field_index ≤ flow'.field_index := by
  unfold FlowManager.process_form_response
  rw [get_or_create_of_some m g now flow hm]
  by_cases hs : flow.state ≠ FlowState.FILLING_FORM
  · exact ⟨flow, by simp [hs, hm], Nat.le_refl _⟩
  cases hcf : flow.current_field with
  | none => exact ⟨flow, by simp [hs, hcf, hm], Nat.le_refl _⟩
  | some cf =>
    by_cases hne : cf = ""
    · exact ⟨flow, by simp [hs, hcf, hne, hm], Nat.le_refl _⟩
    by_cases hattr : FormData.hasattrField cf <;>
      by_cases hadv : flow.field_index < flow.field_order.length - 1 <;>
      simp only [hs, hcf, hne, CustomerFlow.set_field_value, hattr, hadv,
        CustomerFlow.advance_to_next_field, CustomerFlow.get_next_field, ne_eq,
        not_false_eq_true, not_true_eq_false, ite_true, ite_false, if_true, if_false,
        Bool.false_eq_true, if_neg, reduceIte] <;>
      split <;>
      exact ⟨_, flows_setFlow_self _ _ _, by simp⟩

theorem process_flows_ne (m : FlowManager) (target g t : String) (now : Nat)
    (hg : g ≠ target) :
    (m.process_form_response target t now).1.flows g = m.flows g := by
  unfold FlowManager.process_form_response
  cases hmt : m.flows target with
  | some flow =>
    rw [get_or_create_of_some m target now flow hmt]
    by_cases hs : flow.state ≠ FlowState.FILLING_FORM
    · simp [hs]
    cases hcf : flow.current_field with
    | none => simp [hs, hcf]
    | some cf =>
      by_cases hne : cf = ""
      · simp [hs, hcf, hne]
      simp only [hs, hcf, hne, ne_eq, not_false_eq_true, not_true_eq_false, ite_true,
        ite_false, if_false, reduceIte]
      split <;> simp [flows_setFlow_ne m g target _ hg, FlowManager.setFlow, hg]
  | none =>
    rw [get_or_create_of_none m target now hmt]
    simp [freshFlow, FlowManager.setFlow, hg]

theorem applyOp_flows_ne (m : FlowManager) (target g : String) (op : FlowOp)
    (hg : g ≠ target) :
    (applyOp m target op).flows g = m.flows g := by
  cases op with
  | startFormOp now =>
    simp [applyOp, FlowManager.start_form_flow, FlowManager.setFlow, hg,
      flows_get_or_create_ne m g target now hg]
  | processOp t now => exact process_flows_ne m target g t now hg
  | completeFormOp now =>
    simp [applyOp, FlowManager.complete_form_flow, FlowManager.setFlow, hg,
      flows_get_or_create_ne m g target now hg]
  | beginConversationOp now =>
    simp [applyOp, FlowManager.start_conversation, FlowManager.setFlow, hg,
      flows_get_or_create_ne m g target now hg]
  | summarizeOp now =>
    simp [applyOp, FlowManager.get_flow_summary, flows_get_or_create_ne m g target now hg]
  | resetOp now =>
    unfold applyOp FlowManager.reset_flow
    cases hmt : m.flows target <;> simp [FlowManager.setFlow, hg]

/-- Claim C4 counterexample: after one accepted input the cursor is 1, and
a second `start_form_flow` — not a reset — drops it back to 0: the cursor
decreases across an operation that is not an explicit reset. -/
theorem C4_counterexample_start_form_decreases :
    ((((emptyFlowManager.start_form_flow "g" 0).1.process_form_response
        "g" "John" 1).1).flows "g").map CustomerFlow.field_index = some 1 ∧
    ((((emptyFlowManager.start_form_flow "g" 0).1.process_form_response
        "g" "John" 1).1.start_form_flow "g" 2).1.flows "g").map
        CustomerFlow.field_index = some 0 := by
  constructor <;> decide

/-- Claim C4 amended: across any single public operation that is neither an
explicit reset nor `start_form_flow` (which also rewinds the cursor to 0),
the cursor of every registered session never decreases. -/
theorem C4_amended_cursor_monotone (m : FlowManager) (target g : String) (op : FlowOp)
    (flow flow' : CustomerFlow)
    (hreset : op.isReset = false) (hstart : op.isStartForm = false)
    (hm : m.flows g = some flow)
    (hm' : (applyOp m target op).flows g = some flow') :
    flow.field_index ≤ flow'.field_index := by
  by_cases hg : g = target
  case neg =>
    rw [applyOp_flows_ne m target g op hg] at hm'
    rw [hm] at hm'
    cases hm'
    exact Nat.le_refl _
  case pos =>
    subst hg
    cases op with
    | startFormOp now => simp [FlowOp.isStartForm] at hstart
    | resetOp now => simp [FlowOp.isReset] at hreset
    | processOp t now =>
      obtain ⟨f', hf', hle⟩ := process_cursor_le m g t now flow hm
      rw [show applyOp m g (FlowOp.processOp t now) =
            (m.process_form_response g t now).1 from rfl] at hm'
      rw [hf'] at hm'
      cases hm'
      exact hle
    | completeFormOp now =>
      rw [show applyOp m g (FlowOp.completeFormOp now) =
            (m.complete_form_flow g now).1 from rfl] at hm'
      unfold FlowManager.complete_form_flow at hm'
      rw [get_or_create_of_some m g now flow hm] at hm'
      rw [flows_setFlow_self] at hm'
      cases hm'
      exact Nat.le_refl _
    | beginConversationOp now =>
      rw [show applyOp m g (FlowOp.beginConversationOp now) =
            (m.start_conversation g now).1 from rfl] at hm'
      unfold FlowManager.start_conversation at hm'
      rw [get_or_create_of_some m g now flow hm] at hm'
      rw [flows_setFlow_self] at hm'
      cases hm'
      exact Nat.le_refl _
    | summarizeOp now =>
      rw [show applyOp m g (FlowOp.summarizeOp now) =
            (m.get_flow_summary g now).1 from rfl] at hm'
      unfold FlowManager.get_flow_summary at hm'
      rw [get_or_create_of_some m g now flow hm] at hm'
      rw [hm] at hm'
      cases hm'
      exact Nat.le_refl _

theorem C4_amended_cursor_monotone_witness :
    (FlowOp.completeFormOp 2).isReset = false ∧
    (FlowOp.completeFormOp 2).isStartForm = false ∧
    advancedM.flows "g" = some advancedFlow ∧
    (applyOp advancedM "g" (FlowOp.completeFormOp 2)).flows "g" = some awaitingFlow ∧
    advancedFlow.field_index ≤ awaitingFlow.field_index :=
  ⟨by decide, by decide, by decide, by decide,
   C4_amended_cursor_monotone advancedM "g" "g" (FlowOp.completeFormOp 2)
     advancedFlow awaitingFlow (by decide) (by decide) (by decide) (by decide)⟩

end AwsConnectSample
